import Mathlib

/-!
Verification development for the shoehorn CLI (Go).

This file shallowly embeds the credential store, the HTTP transport
primitive, the device-flow login controller, the PAT login path, the
logout path, the exit-code mapping, the server-URL normalizer and the
entity detail aggregation, and proves or refutes the frozen claims
about them.

Modelling conventions:
- Go strings are Lean `String` (byte-level slicing in the URL helpers is
  modelled on `List Char`; all compared text is ASCII).
- `time.Time` is modelled as a `Nat` (seconds since epoch; the Go zero
  time is 0).  `time.Now()` becomes an explicit `now : Nat` parameter.
- Go maps keyed by profile name are association lists
  `List (String × Profile)`; Go map assignment is replace-or-append.
- Fallible Go calls that reach outside the process (HTTP, file I/O,
  JSON/YAML codecs, which the spec excludes as external collaborators)
  are passed in as explicit results or abstract decoding functions.
-/

/-- config.User (src/unnamed/part_010). -/
structure User where
  email : String
  name : String
  tenantID : String
deriving DecidableEq

/-- config.Auth (src/unnamed/part_010).  `expiresAt = 0` models the Go
zero `time.Time`. -/
structure Auth where
  providerType : String
  issuer : String
  clientID : String
  accessToken : String
  refreshToken : String
  tokenType : String
  expiresAt : Nat
  user : Option User
deriving DecidableEq

/-- config.Profile (src/unnamed/part_010). -/
structure Profile where
  name : String
  server : String
  auth : Option Auth
deriving DecidableEq

/-- config.Config (src/unnamed/part_010).  The Go `map[string]*Profile`
is an association list keyed by profile name. -/
structure Config where
  version : String
  currentProfile : String
  profiles : List (String × Profile)
deriving DecidableEq

/-- Go map index `c.Profiles[name]`: first binding wins (Go keys are
unique). -/
def lookupProfile : List (String × Profile) → String → Option Profile
  | [], _ => none
  | (k, p) :: rest, n => if k = n then some p else lookupProfile rest n

/-- Go map assignment `c.Profiles[name] = p`: replace the existing
binding or append a new one. -/
def setProfileList : List (String × Profile) → String → Profile → List (String × Profile)
  | [], n, p => [(n, p)]
  | (k, q) :: rest, n, p =>
      if k = n then (n, p) :: rest else (k, q) :: setProfileList rest n p

/-- Config.GetCurrentProfile (src/unnamed/part_010 line 119), minus the
error message wrapping: `none` models the not-found error. -/
def Config.getCurrentProfile (c : Config) : Option Profile :=
  lookupProfile c.profiles c.currentProfile

/-- Config.IsAuthenticated (src/unnamed/part_010 line 136). -/
def Config.isAuthenticated (c : Config) : Bool :=
  match c.getCurrentProfile with
  | none => false
  | some p =>
    match p.auth with
    | none => false
    | some a => decide (a.accessToken ≠ "")

/-- Config.IsTokenExpired (src/unnamed/part_010 line 145).
`time.Now().After(e)` is the strict comparison `e < now`. -/
def Config.isTokenExpired (c : Config) (now : Nat) : Bool :=
  match c.getCurrentProfile with
  | none => true
  | some p =>
    match p.auth with
    | none => true
    | some a => decide (a.expiresAt < now)

/-- The default config Load returns when no file exists
(src/unnamed/part_010 lines 73-84). -/
def defaultConfig : Config :=
  { version := "1.0"
    currentProfile := "default"
    profiles := [("default", { name := "Default", server := "http://localhost:8080", auth := none })] }

/-- A config whose current profile carries a pat auth with no expiry,
as produced by a PAT login (src/cmd/shoehorn/commands/auth.go
lines 103-112). -/
def patAuth : Auth :=
  { providerType := "pat"
    issuer := "http://localhost:8080"
    clientID := ""
    accessToken := "shp_abc"
    refreshToken := ""
    tokenType := ""
    expiresAt := 0
    user := some { email := "a@b.com", name := "A B", tenantID := "acme" } }

/-- The profile holding `patAuth`. -/
def patProfile : Profile :=
  { name := "Default", server := "http://localhost:8080", auth := some patAuth }

/-- A config whose current profile is `patProfile`. -/
def patConfig : Config :=
  { version := "1.0", currentProfile := "default", profiles := [("default", patProfile)] }

/-- Looking up the key written by `setProfileList` finds the new value. -/
theorem lookupProfile_set_self (l : List (String × Profile)) (k : String) (p : Profile) :
    lookupProfile (setProfileList l k p) k = some p := by
  induction l with
  | nil => simp [setProfileList, lookupProfile]
  | cons hd tl ih =>
    obtain ⟨k', q⟩ := hd
    by_cases hk : k' = k
    · simp [setProfileList, lookupProfile, hk]
    · simp [setProfileList, lookupProfile, hk, ih]

/-- `setProfileList` leaves every other key unchanged. -/
theorem lookupProfile_set_other (l : List (String × Profile)) (k n : String) (p : Profile)
    (hne : n ≠ k) :
    lookupProfile (setProfileList l k p) n = lookupProfile l n := by
  have hkn : k ≠ n := Ne.symm hne
  induction l with
  | nil => simp [setProfileList, lookupProfile, hkn]
  | cons hd tl ih =>
    obtain ⟨k', q⟩ := hd
    by_cases hk : k' = k
    · subst hk
      simp [setProfileList, lookupProfile, hkn]
    · simp [setProfileList, lookupProfile, hk, ih]

/-- Decidable equality for `Except`, so traces that carry results can be
evaluated on concrete inputs. -/
instance instDecEqExcept {ε α : Type} [DecidableEq ε] [DecidableEq α] :
    DecidableEq (Except ε α) := fun x y =>
  match x, y with
  | .ok a, .ok b =>
    if h : a = b then .isTrue (by rw [h])
    else .isFalse (by intro hc; cases hc; exact h rfl)
  | .ok _, .error _ => .isFalse (by intro hc; cases hc)
  | .error _, .ok _ => .isFalse (by intro hc; cases hc)
  | .error e, .error f =>
    if h : e = f then .isTrue (by rw [h])
    else .isFalse (by intro hc; cases hc; exact h rfl)

/-- runLogout never opens an API client; its observable effects are the
configs it saves and the command result. -/
structure LogoutTrace where
  networkCalls : Nat
  saves : List Config
  result : Except String Unit
deriving DecidableEq

/-- runLogout (src/cmd/shoehorn/commands/auth.go lines 194-214): load the
config, clear the current profile's auth, save.  Loading is outside the
claim (the caller passes the loaded config); `networkCalls` is 0 because
the Go body contains no client call. -/
def runLogout (cfg : Config) : LogoutTrace :=
  match cfg.getCurrentProfile with
  | none =>
    { networkCalls := 0, saves := []
      result := Except.error ("profile '" ++ cfg.currentProfile ++ "' not found") }
  | some p =>
    let p' : Profile := { p with auth := none }
    let cfg' : Config := { cfg with profiles := setProfileList cfg.profiles cfg.currentProfile p' }
    { networkCalls := 0, saves := [cfg'], result := Except.ok () }

/-- Claim C1, counterexample: `patConfig`'s current profile has auth with
provider type pat, yet `IsTokenExpired` is true at time 1, because the
code (src/unnamed/part_010 lines 145-154) never looks at the provider
type and `time.Now().After(zero)` holds at any positive time. -/
theorem c1_isTokenExpired_counterexample :
    (patConfig.getCurrentProfile.bind Profile.auth).map Auth.providerType = some "pat" ∧
    patConfig.isTokenExpired 1 = true := by decide

/-- Claim C1 (amended): IsTokenExpired ignores the provider type; for
every config and time it returns true exactly when the current profile
is missing, the profile has no auth, or the current time is strictly
past expires_at — so a profile with absent (zero) expires_at, pat
included, is reported expired at every positive time. -/
theorem c1_isTokenExpired_amended (c : Config) (now : Nat) :
    c.isTokenExpired now = true ↔
      c.getCurrentProfile = none ∨
      (∃ p, c.getCurrentProfile = some p ∧ p.auth = none) ∨
      (∃ p a, c.getCurrentProfile = some p ∧ p.auth = some a ∧ a.expiresAt < now) := by
  cases hp : c.getCurrentProfile with
  | none => simp [Config.isTokenExpired, hp]
  | some p =>
    cases ha : p.auth with
    | none => simp [Config.isTokenExpired, hp, ha]
    | some a => simp [Config.isTokenExpired, hp, ha]

/-- Claim C5: for every config with a current profile, logout clears the
current profile's auth (making IsAuthenticated false), saves exactly
that config, makes no network call, and leaves the version, the current
profile selection and every other profile unchanged. -/
theorem c5_logout_clears_auth (cfg : Config) (p : Profile)
    (h : cfg.getCurrentProfile = some p) :
    (runLogout cfg).networkCalls = 0 ∧
    (runLogout cfg).result = Except.ok () ∧
    ∃ cfg', (runLogout cfg).saves = [cfg'] ∧
      cfg'.isAuthenticated = false ∧
      cfg'.getCurrentProfile = some { p with auth := none } ∧
      cfg'.version = cfg.version ∧
      cfg'.currentProfile = cfg.currentProfile ∧
      ∀ n, n ≠ cfg.currentProfile →
        lookupProfile cfg'.profiles n = lookupProfile cfg.profiles n := by
  have hrun : runLogout cfg =
      { networkCalls := 0
        saves := [{ cfg with
          profiles := setProfileList cfg.profiles cfg.currentProfile { p with auth := none } }]
        result := Except.ok () } := by
    unfold runLogout
    rw [h]
  rw [hrun]
  refine ⟨rfl, rfl, _, rfl, ?_, ?_, rfl, rfl, ?_⟩
  · simp [Config.isAuthenticated, Config.getCurrentProfile, lookupProfile_set_self]
  · simp [Config.getCurrentProfile, lookupProfile_set_self]
  · intro n hn
    exact lookupProfile_set_other cfg.profiles cfg.currentProfile n _ hn

/-- Witness for C5 at a concrete authenticated config. -/
theorem c5_logout_clears_auth_witness :
    (runLogout patConfig).networkCalls = 0 ∧
    (runLogout patConfig).result = Except.ok () ∧
    ∃ cfg', (runLogout patConfig).saves = [cfg'] ∧
      cfg'.isAuthenticated = false ∧
      cfg'.getCurrentProfile = some { patProfile with auth := none } ∧
      cfg'.version = patConfig.version ∧
      cfg'.currentProfile = patConfig.currentProfile ∧
      ∀ n, n ≠ patConfig.currentProfile →
        lookupProfile cfg'.profiles n = lookupProfile patConfig.profiles n :=
  c5_logout_clears_auth patConfig patProfile (by decide)

/-- hasScheme (src/cmd/shoehorn/commands/auth.go lines 227-229), on the
URL's characters: length > 7, then either the first 7 characters are
http-colon-slash-slash, or (length > 8 and) the first 8 are the https
variant.  Go slices the string by bytes; all scheme text is ASCII, so
characters coincide. -/
def hasScheme (url : List Char) : Bool :=
  if 7 < url.length then
    if url.take 7 = "http://".toList then true
    else if 8 < url.length then decide (url.take 8 = "https://".toList)
    else false
  else false

/-- The trailing-slash loop of NormalizeServerURL
(src/cmd/shoehorn/commands/auth.go lines 221-223): repeatedly drop the
last character while it is a slash. -/
def stripTrailingSlashes (url : List Char) : List Char :=
  (url.reverse.dropWhile (fun c => c == '/')).reverse

/-- NormalizeServerURL (src/cmd/shoehorn/commands/auth.go lines 217-225):
prepend the https scheme to a non-empty scheme-less URL, then strip
trailing slashes. -/
def normalizeServerURL (url : List Char) : List Char :=
  let url' := if url ≠ [] ∧ hasScheme url = false then "https://".toList ++ url else url
  stripTrailingSlashes url'

/-- The head of a dropWhile result does not satisfy the predicate. -/
theorem head?_dropWhile_not (p : Char → Bool) (l : List Char) (c : Char)
    (h : (l.dropWhile p).head? = some c) : p c = false := by
  induction l with
  | nil => simp [List.dropWhile] at h
  | cons a as ih =>
    by_cases hp : p a = true
    · rw [List.dropWhile_cons_of_pos hp] at h
      exact ih h
    · rw [List.dropWhile_cons_of_neg hp] at h
      simp only [List.head?_cons, Option.some.injEq] at h
      rw [← h]
      exact Bool.not_eq_true _ |>.mp hp

/-- `stripTrailingSlashes` never leaves a trailing slash. -/
theorem stripTrailingSlashes_getLast? (l : List Char) :
    (stripTrailingSlashes l).getLast? ≠ some '/' := by
  unfold stripTrailingSlashes
  rw [List.getLast?_reverse]
  intro h
  have := head?_dropWhile_not (fun c => c == '/') l.reverse '/' h
  simp at this

/-- A list with no trailing slash is unchanged by `stripTrailingSlashes`. -/
theorem stripTrailingSlashes_eq_self (l : List Char) (h : l.getLast? ≠ some '/') :
    stripTrailingSlashes l = l := by
  unfold stripTrailingSlashes
  cases hr : l.reverse with
  | nil =>
    have hl : l = [] := by
      have := congrArg List.reverse hr
      simpa using this
    simp [hl]
  | cons c cs =>
    have hc : l.getLast? = some c := by
      rw [← List.head?_reverse, hr, List.head?_cons]
    have hpc : (c == '/') = false := by
      rw [beq_eq_false_iff_ne]
      intro hcc
      exact h (hcc ▸ hc)
    rw [List.dropWhile_cons_of_neg (by simp [hpc]), ← hr, List.reverse_reverse]

/-- On a URL that already carries a scheme, NormalizeServerURL only
strips trailing slashes. -/
theorem normalizeServerURL_of_hasScheme (v : List Char) (h : hasScheme v = true) :
    normalizeServerURL v = stripTrailingSlashes v := by
  unfold normalizeServerURL
  rw [if_neg (by simp [h])]

/-- Claim C10, counterexample to idempotence: one pass over the slash
URL yields the bare https scheme name, and a second pass prefixes the
scheme again, changing the result. -/
theorem c10_normalize_counterexample :
    normalizeServerURL "/".toList = "https:".toList ∧
    normalizeServerURL (normalizeServerURL "/".toList) ≠ normalizeServerURL "/".toList := by
  decide

/-- Claim C10 (amended): NormalizeServerURL never returns a string ending
in a slash, and prefixes the https scheme to every non-empty input not
starting with either scheme; it is idempotent on every input whose
normalized form is empty or still starts with one of the two schemes,
but not in general (stripping can truncate an all-slash remainder down
into the bare scheme name, as the counterexample shows). -/
theorem c10_normalize_amended (url : List Char) :
    (normalizeServerURL url).getLast? ≠ some '/' ∧
    (url ≠ [] → ¬ ("http://".toList <+: url) → ¬ ("https://".toList <+: url) →
      normalizeServerURL url = stripTrailingSlashes ("https://".toList ++ url)) ∧
    ((normalizeServerURL url = [] ∨ "http://".toList <+: normalizeServerURL url ∨
        "https://".toList <+: normalizeServerURL url) →
      normalizeServerURL (normalizeServerURL url) = normalizeServerURL url) := by
  refine ⟨by unfold normalizeServerURL; exact stripTrailingSlashes_getLast? _, ?_, ?_⟩
  · intro hne hp1 hp2
    have hs : hasScheme url = false := by
      unfold hasScheme
      by_cases h7 : 7 < url.length
      · rw [if_pos h7]
        have ht7 : ¬ url.take 7 = "http://".toList := by
          intro ht
          exact hp1 (List.prefix_iff_eq_take.mpr (by simpa using ht.symm))
        rw [if_neg ht7]
        by_cases h8 : 8 < url.length
        · rw [if_pos h8]
          simp only [decide_eq_false_iff_not]
          intro ht
          exact hp2 (List.prefix_iff_eq_take.mpr (by simpa using ht.symm))
        · rw [if_neg h8]
      · rw [if_neg h7]
    unfold normalizeServerURL
    rw [if_pos ⟨hne, hs⟩]
  · intro hcase
    have hlast : (normalizeServerURL url).getLast? ≠ some '/' := by
      unfold normalizeServerURL; exact stripTrailingSlashes_getLast? _
    rcases hcase with hnil | hpre | hpre
    · rw [hnil]
      decide
    · -- the normalized URL starts with the plain http scheme
      have hne7 : normalizeServerURL url ≠ "http://".toList := by
        intro he
        apply hlast
        rw [he]
        decide
      have h7 : 7 < (normalizeServerURL url).length := by
        have hle : 7 ≤ (normalizeServerURL url).length := by
          simpa using List.IsPrefix.length_le hpre
        rcases Nat.lt_or_ge 7 (normalizeServerURL url).length with h | h
        · exact h
        · exfalso
          apply hne7
          exact (List.IsPrefix.eq_of_length hpre (by simp; omega)).symm
      have ht : (normalizeServerURL url).take 7 = "http://".toList := by
        have := List.prefix_iff_eq_take.mp hpre
        simpa using this.symm
      have hs : hasScheme (normalizeServerURL url) = true := by
        unfold hasScheme
        rw [if_pos h7, if_pos ht]
      rw [normalizeServerURL_of_hasScheme _ hs]
      exact stripTrailingSlashes_eq_self _ hlast
    · -- the normalized URL starts with the https scheme
      have hne8 : normalizeServerURL url ≠ "https://".toList := by
        intro he
        apply hlast
        rw [he]
        decide
      have h8 : 8 < (normalizeServerURL url).length := by
        have hle : 8 ≤ (normalizeServerURL url).length := by
          simpa using List.IsPrefix.length_le hpre
        rcases Nat.lt_or_ge 8 (normalizeServerURL url).length with h | h
        · exact h
        · exfalso
          apply hne8
          exact (List.IsPrefix.eq_of_length hpre (by simp; omega)).symm
      have ht8 : (normalizeServerURL url).take 8 = "https://".toList := by
        have := List.prefix_iff_eq_take.mp hpre
        simpa using this.symm
      have ht7 : (normalizeServerURL url).take 7 = "https://".toList.take 7 := by
        have hmin : min 7 8 = 7 := by norm_num
        have h := congrArg (List.take 7) ht8
        rwa [List.take_take, hmin] at h
      have ht7ne : ¬ (normalizeServerURL url).take 7 = "http://".toList := by
        rw [ht7]
        decide
      have hs : hasScheme (normalizeServerURL url) = true := by
        unfold hasScheme
        rw [if_pos (by omega), if_neg ht7ne, if_pos h8, decide_eq_true_eq]
        exact ht8
      rw [normalizeServerURL_of_hasScheme _ hs]
      exact stripTrailingSlashes_eq_self _ hlast

/-- Witness for the amended C10 at concrete URLs: a scheme-less host is
prefixed, and normalizing an already-normalized URL is stable. -/
theorem c10_normalize_amended_witness :
    normalizeServerURL "example.com".toList =
      stripTrailingSlashes ("https://".toList ++ "example.com".toList) ∧
    normalizeServerURL (normalizeServerURL "example.com/".toList) =
      normalizeServerURL "example.com/".toList :=
  ⟨(c10_normalize_amended "example.com".toList).2.1 (by decide) (by decide) (by decide),
   (c10_normalize_amended "example.com/".toList).2.2 (Or.inr (Or.inr (by decide)))⟩

/-- strings.Contains on characters: true when the needle occurs as a
contiguous run anywhere in the haystack. -/
def listStartsWith : List Char → List Char → Bool
  | _, [] => true
  | [], _ :: _ => false
  | c :: cs, d :: ds => c == d && listStartsWith cs ds

/-- strings.Contains, by scanning every suffix. -/
def listContains : List Char → List Char → Bool
  | [], sub => listStartsWith [] sub
  | s :: rest, sub => listStartsWith (s :: rest) sub || listContains rest sub

/-- ExitWithError's code selection (src/pkg/ui/exit_codes.go lines
26-64): lower-case the error text and pick the first matching substring
category; the default is the generic code 1.  Printing to stderr is
elided.  The Exit* constants are inlined as their declared values. -/
def exitCodeForError (msg : List Char) : Nat :=
  let m := msg.map Char.toLower
  if listContains m "not authenticated".toList ∨
     listContains m "authentication required".toList ∨
     listContains m "401".toList then 2
  else if listContains m "not found".toList ∨ listContains m "404".toList then 3
  else if listContains m "validation".toList ∨ listContains m "invalid".toList ∨
          listContains m "400".toList then 4
  else if listContains m "timeout".toList ∨ listContains m "deadline exceeded".toList then 5
  else if listContains m "cancelled".toList ∨ listContains m "canceled".toList then 6
  else 1

/-- main (src/cmd/shoehorn/main.go lines 9-13 and 32-36): run the root
command; on any error exit with code 1, otherwise return (exit 0).
Neither revision of main calls ui.ExitWithError. -/
def mainExitCode (runResult : Except (List Char) Unit) : Nat :=
  match runResult with
  | .ok _ => 0
  | .error _ => 1

/-- Claim C9, counterexample: an auth-required error (its message
contains the phrase the repository's own categorizer maps to code 2)
still makes the process exit with code 1, because main hard-codes
os.Exit(1) and never calls ui.ExitWithError. -/
theorem c9_exit_code_counterexample :
    mainExitCode (Except.error "not authenticated".toList) = 1 ∧
    exitCodeForError "not authenticated".toList = 2 ∧
    (1 : Nat) ≠ 2 := by decide

/-- Claim C9 (amended): ui.ExitWithError does map error text to the
documented codes (2 auth, 3 not-found, 4 validation, 5 timeout,
6 cancelled, 1 generic) by substring matching on the lowercased message,
but it is dead code: the program's main exits 0 on success and 1 on
every error, whatever its category. -/
theorem c9_exit_code_amended :
    (∀ e, mainExitCode (Except.error e) = 1) ∧
    mainExitCode (Except.ok ()) = 0 ∧
    exitCodeForError "Not Authenticated".toList = 2 ∧
    exitCodeForError "API error (401): nope".toList = 2 ∧
    exitCodeForError "entity not found".toList = 3 ∧
    exitCodeForError "validation failed".toList = 4 ∧
    exitCodeForError "authentication timeout: device code expired".toList = 5 ∧
    exitCodeForError "operation cancelled".toList = 6 ∧
    exitCodeForError "boom".toList = 1 := by
  refine ⟨fun e => rfl, rfl, ?_, ?_, ?_, ?_, ?_, ?_, ?_⟩ <;> decide

/-- api.DeviceInitResponse (src/unnamed/part_007 lines 9-16).  The two
durations are seconds; the Go ints are non-negative in every server
response, so they are Nat here. -/
structure DeviceInitResponse where
  deviceCode : String
  userCode : String
  verificationURI : String
  verificationURIComplete : String
  expiresIn : Nat
  interval : Nat
deriving DecidableEq

/-- api.UserInfo (src/unnamed/part_007 lines 39-43). -/
structure UserInfo where
  email : String
  name : String
  tenantID : String
deriving DecidableEq

/-- api.DevicePollResponse (src/unnamed/part_007 lines 24-36).  The Go
`User *UserInfo` pointer is an Option. -/
structure DevicePollResponse where
  accessToken : String
  refreshToken : String
  tokenType : String
  expiresIn : Nat
  expiresAt : Nat
  user : Option UserInfo
  pending : Bool
  message : String
deriving DecidableEq

/-- How one poll-loop run of runLogin ends. -/
inductive PollOutcome where
  | success (resp : DevicePollResponse)
  | timeout
  | pollError (msg : String)
  | unexpected (resp : DevicePollResponse)
  | exhausted
deriving DecidableEq

/-- A poll-loop run: its outcome and how many poll calls it made. -/
structure PollRun where
  outcome : PollOutcome
  pollCalls : Nat
deriving DecidableEq

/-- Does a poll response signal "pending, keep waiting"
(empty access token, pending flag set)? -/
def isPendingResp (r : Except String DevicePollResponse) : Bool :=
  match r with
  | .ok resp => resp.accessToken == "" && resp.pending
  | .error _ => false

/-- The polling loop of runLogin (src/cmd/shoehorn/main.go lines
146-173).  `now` advances only by the slept intervals; each iteration
first checks the deadline (strictly, like time.Now().After), then
consumes the next poll result.  The response list is the sequence of
server answers; running out of answers is the `exhausted` model
artifact (a real server always answers, successfully or not). -/
def pollLoop (deadline : Nat) : List (Except String DevicePollResponse) → Nat → Nat → PollRun
  | responses, now, interval =>
    if deadline < now then { outcome := .timeout, pollCalls := 0 }
    else
      match responses with
      | [] => { outcome := .exhausted, pollCalls := 0 }
      | r :: rest =>
        match r with
        | .error e => { outcome := .pollError e, pollCalls := 1 }
        | .ok resp =>
          if resp.accessToken ≠ "" then { outcome := .success resp, pollCalls := 1 }
          else if resp.pending then
            let interval' := if resp.message = "slow_down" then interval * 2 else interval
            let run := pollLoop deadline rest (now + interval') interval'
            { run with pollCalls := run.pollCalls + 1 }
          else { outcome := .unexpected resp, pollCalls := 1 }

/-- How a device-flow login run ends.  `panicked` models the Go nil
dereference of pollResp.User when a success response has no user. -/
inductive LoginResult where
  | ok
  | err (msg : String)
  | panicked
deriving DecidableEq

/-- Observable effects of one device-flow runLogin invocation. -/
structure LoginTrace where
  initCalls : Nat
  pollCalls : Nat
  saves : List Config
  result : LoginResult
deriving DecidableEq

/-- The device-flow runLogin (src/cmd/shoehorn/main.go lines 100-216):
one init call; on success compute deadline = now + expires_in and poll;
after a success response, store an Auth with provider type api on the
current profile (an absent current profile is an error, not created)
and save exactly once. -/
def runDeviceLogin (cfg : Config) (server : String)
    (initResult : Except String DeviceInitResponse)
    (polls : List (Except String DevicePollResponse)) (start : Nat) : LoginTrace :=
  match initResult with
  | .error e =>
    { initCalls := 1, pollCalls := 0, saves := []
      result := .err ("failed to initiate device flow: " ++ e) }
  | .ok d =>
    let deadline := start + d.expiresIn
    let run := pollLoop deadline polls start d.interval
    match run.outcome with
    | .timeout =>
      { initCalls := 1, pollCalls := run.pollCalls, saves := []
        result := .err "authentication timeout: device code expired" }
    | .pollError e =>
      { initCalls := 1, pollCalls := run.pollCalls, saves := []
        result := .err ("failed to poll device flow: " ++ e) }
    | .unexpected _ =>
      { initCalls := 1, pollCalls := run.pollCalls, saves := []
        result := .err "unexpected response from server" }
    | .exhausted =>
      { initCalls := 1, pollCalls := run.pollCalls, saves := []
        result := .err "model: poll responses exhausted" }
    | .success resp =>
      match lookupProfile cfg.profiles cfg.currentProfile with
      | none =>
        { initCalls := 1, pollCalls := run.pollCalls, saves := []
          result := .err ("current profile not found: " ++ cfg.currentProfile) }
      | some p =>
        match resp.user with
        | none =>
          { initCalls := 1, pollCalls := run.pollCalls, saves := [], result := .panicked }
        | some u =>
          let auth : Auth :=
            { providerType := "api", issuer := server, clientID := "shoehorn-cli"
              accessToken := resp.accessToken, refreshToken := resp.refreshToken
              tokenType := resp.tokenType, expiresAt := resp.expiresAt
              user := some { email := u.email, name := u.name, tenantID := u.tenantID } }
          let p' : Profile := { p with auth := some auth, server := server }
          let cfg' : Config :=
            { cfg with profiles := setProfileList cfg.profiles cfg.currentProfile p' }
          { initCalls := 1, pollCalls := run.pollCalls, saves := [cfg'], result := .ok }

/-- Total time slept by the loop over a pending prefix: each pending
response sleeps the (possibly doubled) current interval. -/
def elapsedTime : List (Except String DevicePollResponse) → Nat → Nat
  | [], _ => 0
  | r :: rest, interval =>
    match r with
    | .error _ => 0
    | .ok resp =>
      let interval' := if resp.message = "slow_down" then interval * 2 else interval
      interval' + elapsedTime rest interval'

/-- A pending prefix followed by a success response, with the total
sleep time within the deadline, ends the loop in success after
(pending + 1) poll calls. -/
theorem pollLoop_pending_success (deadline : Nat) (succ : DevicePollResponse)
    (htok : succ.accessToken ≠ "") :
    ∀ (pendings : List (Except String DevicePollResponse)) (now interval : Nat),
      pendings.all isPendingResp = true →
      now + elapsedTime pendings interval ≤ deadline →
      pollLoop deadline (pendings ++ [Except.ok succ]) now interval =
        { outcome := .success succ, pollCalls := pendings.length + 1 } := by
  intro pendings
  induction pendings with
  | nil =>
    intro now interval hall htime
    have hnd : ¬ deadline < now := by
      simp only [elapsedTime, Nat.add_zero] at htime
      omega
    unfold pollLoop
    rw [if_neg hnd]
    simp only [List.nil_append]
    rw [if_pos htok]
    simp
  | cons r rs ih =>
    intro now interval hall htime
    simp only [List.all_cons, Bool.and_eq_true] at hall
    obtain ⟨hp, hall'⟩ := hall
    cases r with
    | error e => simp [isPendingResp] at hp
    | ok resp =>
      simp only [isPendingResp, Bool.and_eq_true, beq_iff_eq] at hp
      obtain ⟨haT, hpend⟩ := hp
      simp only [elapsedTime] at htime
      have hnd : ¬ deadline < now := by omega
      unfold pollLoop
      rw [if_neg hnd]
      simp only [List.cons_append]
      rw [if_neg (by simp [haT]), if_pos hpend]
      rw [ih (now + (if resp.message = "slow_down" then interval * 2 else interval))
            (if resp.message = "slow_down" then interval * 2 else interval) hall' (by omega)]
      simp

/-- Only pending responses, enough of them to outlast the deadline
(each sleep advances time by at least one second), end the loop in
timeout. -/
theorem pollLoop_pending_timeout (deadline : Nat) :
    ∀ (responses : List (Except String DevicePollResponse)) (now interval : Nat),
      responses.all isPendingResp = true → 1 ≤ interval →
      deadline + 1 ≤ now + responses.length →
      (pollLoop deadline responses now interval).outcome = .timeout := by
  intro responses
  induction responses with
  | nil =>
    intro now interval _ _ hlen
    have hd : deadline < now := by simpa using hlen
    unfold pollLoop
    rw [if_pos hd]
  | cons r rs ih =>
    intro now interval hall hint hlen
    simp only [List.all_cons, Bool.and_eq_true] at hall
    obtain ⟨hp, hall'⟩ := hall
    by_cases hd : deadline < now
    · unfold pollLoop
      rw [if_pos hd]
    · cases r with
      | error e => simp [isPendingResp] at hp
      | ok resp =>
        simp only [isPendingResp, Bool.and_eq_true, beq_iff_eq] at hp
        obtain ⟨haT, hpend⟩ := hp
        have hi' : 1 ≤ (if resp.message = "slow_down" then interval * 2 else interval) := by
          split <;> omega
        unfold pollLoop
        rw [if_neg hd]
        simp only []
        rw [if_neg (by simp [haT]), if_pos hpend]
        have := ih (now + (if resp.message = "slow_down" then interval * 2 else interval))
          (if resp.message = "slow_down" then interval * 2 else interval) hall' hi'
          (by simp only [List.length_cons] at hlen; omega)
        simpa using this

/-- A poll response whose only content is the pending flag. -/
def pendingResp : DevicePollResponse :=
  { accessToken := "", refreshToken := "", tokenType := "", expiresIn := 0, expiresAt := 0
    user := none, pending := true, message := "" }

/-- A device-init response: a 3-second window polled every second. -/
def initRespDemo : DeviceInitResponse :=
  { deviceCode := "dev123", userCode := "ABCD-EFGH"
    verificationURI := "http://localhost:8080/device", verificationURIComplete := ""
    expiresIn := 3, interval := 1 }

/-- A successful poll response carrying a token and a user snapshot. -/
def successPollResp : DevicePollResponse :=
  { accessToken := "tok123", refreshToken := "ref456", tokenType := "Bearer"
    expiresIn := 3600, expiresAt := 7200
    user := some { email := "a@b.com", name := "A B", tenantID := "acme" }
    pending := false, message := "" }

/-- Claim C3: when every poll response up to the deadline
(start + expires_in, with each declared poll interval at least one
second, so that sleeps actually consume the window) signals pending,
the device-flow login fails with the timeout error, saves nothing, and
made exactly one initiate call. -/
theorem c3_device_timeout (cfg : Config) (server : String) (d : DeviceInitResponse)
    (polls : List (Except String DevicePollResponse)) (start : Nat)
    (hall : polls.all isPendingResp = true)
    (hint : 1 ≤ d.interval)
    (hlen : d.expiresIn + 1 ≤ polls.length) :
    (runDeviceLogin cfg server (.ok d) polls start).result =
      .err "authentication timeout: device code expired" ∧
    (runDeviceLogin cfg server (.ok d) polls start).saves = [] ∧
    (runDeviceLogin cfg server (.ok d) polls start).initCalls = 1 := by
  have hout := pollLoop_pending_timeout (start + d.expiresIn) polls start d.interval
    hall hint (by omega)
  simp only [runDeviceLogin]
  rw [hout]
  exact ⟨rfl, rfl, rfl⟩

/-- Witness for C3: four pending answers against a 3-second window. -/
theorem c3_device_timeout_witness :
    (runDeviceLogin defaultConfig "http://localhost:8080" (.ok initRespDemo)
        [.ok pendingResp, .ok pendingResp, .ok pendingResp, .ok pendingResp] 0).result =
      .err "authentication timeout: device code expired" ∧
    (runDeviceLogin defaultConfig "http://localhost:8080" (.ok initRespDemo)
        [.ok pendingResp, .ok pendingResp, .ok pendingResp, .ok pendingResp] 0).saves = [] ∧
    (runDeviceLogin defaultConfig "http://localhost:8080" (.ok initRespDemo)
        [.ok pendingResp, .ok pendingResp, .ok pendingResp, .ok pendingResp] 0).initCalls = 1 :=
  c3_device_timeout defaultConfig "http://localhost:8080" initRespDemo
    [.ok pendingResp, .ok pendingResp, .ok pendingResp, .ok pendingResp] 0
    (by decide) (by decide) (by decide)

/-- The config the device flow saves after a success response: the
current profile gets server and an api-provider Auth built from the
poll response. -/
def deviceSavedConfig (cfg : Config) (server : String) (resp : DevicePollResponse)
    (u : UserInfo) (p : Profile) : Config :=
  let auth : Auth :=
    { providerType := "api", issuer := server, clientID := "shoehorn-cli"
      accessToken := resp.accessToken, refreshToken := resp.refreshToken
      tokenType := resp.tokenType, expiresAt := resp.expiresAt
      user := some { email := u.email, name := u.name, tenantID := u.tenantID } }
  let p' : Profile := { p with auth := some auth, server := server }
  { cfg with profiles := setProfileList cfg.profiles cfg.currentProfile p' }

/-- A config whose current_profile has no matching entry. -/
def noProfileConfig : Config :=
  { version := "1.0", currentProfile := "default", profiles := [] }

/-- Claim C2, counterexample: a run with pending responses followed by a
success persists an Auth whose provider_type is api, not device; and
with the current profile absent the controller errors out without
creating it or saving anything. -/
theorem c2_device_persist_counterexample :
    ((runDeviceLogin defaultConfig "http://localhost:8080" (.ok initRespDemo)
        [.ok pendingResp, .ok successPollResp] 0).saves.head?.bind
      (fun c => (c.getCurrentProfile.bind Profile.auth).map Auth.providerType)) = some "api" ∧
    some "api" ≠ some ("device" : String) ∧
    (runDeviceLogin noProfileConfig "http://localhost:8080" (.ok initRespDemo)
        [.ok pendingResp, .ok successPollResp] 0).saves = [] ∧
    (runDeviceLogin noProfileConfig "http://localhost:8080" (.ok initRespDemo)
        [.ok pendingResp, .ok successPollResp] 0).result =
      .err "current profile not found: default" := by decide

/-- Claim C2 (amended): for a pending sequence followed by a success
response carrying a user snapshot, all within the deadline, the
controller makes exactly one initiate call and (pending + 1) poll
calls; if the current profile exists it persists exactly once, only
after the success response, writing an Auth with provider_type api onto
the current profile; if the current profile is absent it fails without
creating it and persists nothing. -/
theorem c2_device_persist (cfg : Config) (server : String) (d : DeviceInitResponse)
    (pendings : List (Except String DevicePollResponse)) (succ : DevicePollResponse)
    (u : UserInfo) (start : Nat)
    (hall : pendings.all isPendingResp = true)
    (htime : elapsedTime pendings d.interval ≤ d.expiresIn)
    (htok : succ.accessToken ≠ "")
    (huser : succ.user = some u) :
    (runDeviceLogin cfg server (.ok d) (pendings ++ [.ok succ]) start).initCalls = 1 ∧
    (runDeviceLogin cfg server (.ok d) (pendings ++ [.ok succ]) start).pollCalls =
      pendings.length + 1 ∧
    (match lookupProfile cfg.profiles cfg.currentProfile with
     | some p =>
        (runDeviceLogin cfg server (.ok d) (pendings ++ [.ok succ]) start).result = .ok ∧
        (runDeviceLogin cfg server (.ok d) (pendings ++ [.ok succ]) start).saves =
          [deviceSavedConfig cfg server succ u p]
     | none =>
        (runDeviceLogin cfg server (.ok d) (pendings ++ [.ok succ]) start).result =
          .err ("current profile not found: " ++ cfg.currentProfile) ∧
        (runDeviceLogin cfg server (.ok d) (pendings ++ [.ok succ]) start).saves = []) := by
  have hrun := pollLoop_pending_success (start + d.expiresIn) succ htok pendings start
    d.interval hall (by omega)
  cases hp : lookupProfile cfg.profiles cfg.currentProfile with
  | none =>
    simp [runDeviceLogin, hrun, hp]
  | some p =>
    simp [runDeviceLogin, hrun, hp, huser, deviceSavedConfig]

/-- Witness for the amended C2: one pending answer, then success, on the
default config. -/
theorem c2_device_persist_witness :
    (runDeviceLogin defaultConfig "http://localhost:8080" (.ok initRespDemo)
        ([.ok pendingResp] ++ [.ok successPollResp]) 0).initCalls = 1 ∧
    (runDeviceLogin defaultConfig "http://localhost:8080" (.ok initRespDemo)
        ([.ok pendingResp] ++ [.ok successPollResp]) 0).pollCalls =
      ([Except.ok pendingResp] : List (Except String DevicePollResponse)).length + 1 ∧
    (match lookupProfile defaultConfig.profiles defaultConfig.currentProfile with
     | some p =>
        (runDeviceLogin defaultConfig "http://localhost:8080" (.ok initRespDemo)
            ([.ok pendingResp] ++ [.ok successPollResp]) 0).result = .ok ∧
        (runDeviceLogin defaultConfig "http://localhost:8080" (.ok initRespDemo)
            ([.ok pendingResp] ++ [.ok successPollResp]) 0).saves =
          [deviceSavedConfig defaultConfig "http://localhost:8080" successPollResp
            { email := "a@b.com", name := "A B", tenantID := "acme" } p]
     | none =>
        (runDeviceLogin defaultConfig "http://localhost:8080" (.ok initRespDemo)
            ([.ok pendingResp] ++ [.ok successPollResp]) 0).result =
          .err ("current profile not found: " ++ defaultConfig.currentProfile) ∧
        (runDeviceLogin defaultConfig "http://localhost:8080" (.ok initRespDemo)
            ([.ok pendingResp] ++ [.ok successPollResp]) 0).saves = []) :=
  c2_device_persist defaultConfig "http://localhost:8080" initRespDemo
    [.ok pendingResp] successPollResp { email := "a@b.com", name := "A B", tenantID := "acme" } 0
    (by decide) (by decide) (by decide) (by decide)

/-- api.MeResponse (src/unnamed/part_007, second document, lines
109-117). -/
structure MeResponse where
  id : String
  email : String
  name : String
  tenantID : String
  roles : List String
  groups : List String
  teams : List String
deriving DecidableEq

/-- Observable effects of runLoginWithPAT: the configs it saves, the
error panels it prints (title and body of each ErrorBox), and the value
it returns to its cobra caller. -/
structure PatLoginTrace where
  saves : List Config
  errorBoxes : List (String × String)
  result : Except String Unit
deriving DecidableEq

/-- runLoginWithPAT (src/cmd/shoehorn/commands/auth.go lines 73-128):
verify the token by calling /me (the spinner passes the call's result
through); on failure print an ErrorBox and return nil; on success load
the config, create the current profile if missing, overwrite its server
and auth (provider pat, the supplied token, the fetched identity) and
save.  The /me call result and the config load result are inputs; the
success panel is elided. -/
def runLoginWithPAT (server token : String) (meResult : Except String MeResponse)
    (loadResult : Except String Config) : PatLoginTrace :=
  match meResult with
  | .error e =>
    { saves := [], errorBoxes := [("Authentication Failed", e)], result := Except.ok () }
  | .ok me =>
    match loadResult with
    | .error e =>
      { saves := [], errorBoxes := [], result := Except.error ("load config: " ++ e) }
    | .ok cfg =>
      let p : Profile :=
        match lookupProfile cfg.profiles cfg.currentProfile with
        | some p0 => p0
        | none => { name := cfg.currentProfile, server := "", auth := none }
      let auth : Auth :=
        { providerType := "pat", issuer := server, clientID := ""
          accessToken := token, refreshToken := "", tokenType := "", expiresAt := 0
          user := some { email := me.email, name := me.name, tenantID := me.tenantID } }
      let p' : Profile := { p with server := server, auth := some auth }
      let cfg' : Config :=
        { cfg with profiles := setProfileList cfg.profiles cfg.currentProfile p' }
      { saves := [cfg'], errorBoxes := [], result := Except.ok () }

/-- The Auth record a successful PAT login writes: provider pat, issuer
and access token from the inputs, identity snapshot from /me
(src/cmd/shoehorn/commands/auth.go lines 103-112). -/
def patAuthFor (server token : String) (me : MeResponse) : Auth :=
  { providerType := "pat", issuer := server, clientID := ""
    accessToken := token, refreshToken := "", tokenType := "", expiresAt := 0
    user := some { email := me.email, name := me.name, tenantID := me.tenantID } }

/-- The /me response of the spec's concrete PAT scenario. -/
def meRespDemo : MeResponse :=
  { id := "u1", email := "a@b.com", name := "A B", tenantID := "acme"
    roles := [], groups := [], teams := [] }

/-- Claim C6, counterexample: when the verification call fails, the
command persists nothing — but it also returns nil (success) to its
caller after printing an error panel, so the original error is not
surfaced to the caller as the claim states. -/
theorem c6_pat_login_counterexample :
    (runLoginWithPAT "http://localhost:8080" "shp_abc"
        (.error "API error (401): invalid token") (.ok defaultConfig)).result =
      Except.ok () ∧
    (runLoginWithPAT "http://localhost:8080" "shp_abc"
        (.error "API error (401): invalid token") (.ok defaultConfig)).saves = [] ∧
    (Except.ok () : Except String Unit) ≠
      Except.error "API error (401): invalid token" := by decide

/-- Claim C6 (amended): when the single verification call fails, nothing
is persisted and the original error is reported only by printing an
error panel carrying its message, while the function returns success
(nil) to its caller; on success an Auth with provider_type pat, the
supplied token and the fetched identity is stored on the current
profile (created if absent, server overwritten) and persisted. -/
theorem c6_pat_login (server token e : String) (me : MeResponse) (cfg : Config)
    (loadResult : Except String Config) :
    ((runLoginWithPAT server token (.error e) loadResult).saves = [] ∧
     (runLoginWithPAT server token (.error e) loadResult).errorBoxes =
       [("Authentication Failed", e)] ∧
     (runLoginWithPAT server token (.error e) loadResult).result = Except.ok ()) ∧
    (∃ p', (runLoginWithPAT server token (.ok me) (.ok cfg)).saves =
        [{ cfg with profiles := setProfileList cfg.profiles cfg.currentProfile p' }] ∧
      (runLoginWithPAT server token (.ok me) (.ok cfg)).result = Except.ok () ∧
      p'.server = server ∧
      p'.auth = some (patAuthFor server token me) ∧
      ({ cfg with profiles := setProfileList cfg.profiles cfg.currentProfile p' } :
          Config).getCurrentProfile = some p') := by
  refine ⟨⟨rfl, rfl, rfl⟩, ?_⟩
  refine ⟨_, rfl, rfl, rfl, rfl, ?_⟩
  simp [Config.getCurrentProfile, lookupProfile_set_self]

/-- An HTTP response after the body has been read (Client.do reads the
whole body before branching; src/unnamed/part_009 lines 74-77).  HTTP
status codes are non-negative. -/
structure HttpResponse where
  statusCode : Nat
  body : String
deriving DecidableEq

/-- api.ErrorResponse (src/unnamed/part_009 lines 139-144), flattened:
the nested error object's message and code. -/
structure ErrorEnvelope where
  message : String
  code : String
deriving DecidableEq

/-- The errors Client.do can produce (src/unnamed/part_009 lines 47-97);
in Go each is a fmt.Errorf string, here a constructor carrying the same
data, apiError with the status code and the chosen message. -/
inductive DoError where
  | networkError (msg : String)
  | apiError (status : Nat) (message : String)
  | decodeError (body : String)
deriving DecidableEq

/-- Client.do (src/unnamed/part_009 lines 47-97) for one response.
Request construction and bearer injection do not affect the branch
structure and are elided; the network outcome is an input.  JSON
codecs are external collaborators (spec section 1), so unmarshalling
into ErrorResponse and into the output target are abstract partial
functions, `none` meaning the parse failed.  `wantOut` is whether the
caller passed a non-nil result target; the decoded value is returned in
place of Go's out-parameter write. -/
def clientDo {α : Type} (networkResult : Except String HttpResponse)
    (parseErrorEnvelope : String → Option ErrorEnvelope)
    (decodeOut : String → Option α) (wantOut : Bool) : Except DoError (Option α) :=
  match networkResult with
  | .error e => .error (.networkError e)
  | .ok resp =>
    if resp.statusCode < 200 ∨ 300 ≤ resp.statusCode then
      match parseErrorEnvelope resp.body with
      | none => .error (.apiError resp.statusCode resp.body)
      | some env => .error (.apiError resp.statusCode env.message)
    else if wantOut then
      match decodeOut resp.body with
      | none => .error (.decodeError resp.body)
      | some v => .ok (some v)
    else .ok none

/-- Claim C4: outside 2xx the transport fails with an error carrying the
status code and either the envelope's message or, when the envelope
does not parse, the raw body text; on a 2xx response with a non-nil
target it succeeds with the decoded body exactly when the body decodes,
and fails with a decode error otherwise. -/
theorem c4_transport_status_mapping {α : Type}
    (parseErrorEnvelope : String → Option ErrorEnvelope)
    (decodeOut : String → Option α) (wantOut : Bool) (resp : HttpResponse) :
    (resp.statusCode < 200 ∨ 300 ≤ resp.statusCode →
      clientDo (.ok resp) parseErrorEnvelope decodeOut wantOut =
        .error (.apiError resp.statusCode
          (match parseErrorEnvelope resp.body with
           | some env => env.message
           | none => resp.body))) ∧
    (200 ≤ resp.statusCode → resp.statusCode < 300 → wantOut = true →
      clientDo (.ok resp) parseErrorEnvelope decodeOut wantOut =
        (match decodeOut resp.body with
         | some v => .ok (some v)
         | none => .error (.decodeError resp.body))) := by
  have hred : clientDo (.ok resp) parseErrorEnvelope decodeOut wantOut =
      if resp.statusCode < 200 ∨ 300 ≤ resp.statusCode then
        (match parseErrorEnvelope resp.body with
         | none => .error (.apiError resp.statusCode resp.body)
         | some env => .error (.apiError resp.statusCode env.message))
      else if wantOut then
        (match decodeOut resp.body with
         | none => .error (.decodeError resp.body)
         | some v => .ok (some v))
      else .ok none := rfl
  constructor
  · intro hout
    rw [hred, if_pos hout]
    cases parseErrorEnvelope resp.body <;> rfl
  · intro h200 h300 hw
    have hcond : ¬ (resp.statusCode < 200 ∨ 300 ≤ resp.statusCode) := by omega
    rw [hred, if_neg hcond, hw, if_pos rfl]
    cases decodeOut resp.body <;> rfl

/-- Witness for C4: a 404 with an unparseable body carries the raw text;
a 200 with a decodable body succeeds with the decoded value. -/
theorem c4_transport_status_mapping_witness :
    clientDo (α := Nat) (.ok { statusCode := 404, body := "nope" })
        (fun _ => none) (fun _ => some 7) true =
      .error (.apiError 404 "nope") ∧
    clientDo (α := Nat) (.ok { statusCode := 200, body := "7" })
        (fun _ => none) (fun _ => some 7) true = .ok (some 7) :=
  ⟨(c4_transport_status_mapping (fun _ => none) (fun _ => some 7) true
      { statusCode := 404, body := "nope" }).1 (by decide),
   (c4_transport_status_mapping (fun _ => none) (fun _ => some 7) true
      { statusCode := 200, body := "7" }).2 (by decide) (by decide) rfl⟩

/-- api.EntityLink (src/unnamed/part_007, lines 180-184). -/
structure EntityLink where
  title : String
  url : String
  icon : String
deriving DecidableEq

/-- api.EntityDetail (src/unnamed/part_007 lines 172-177 with the
embedded Entity flattened); `etype` is the Go field Type. -/
structure EntityDetail where
  id : String
  name : String
  slug : String
  etype : String
  owner : String
  description : String
  tags : List String
  tenantID : String
  links : List EntityLink
  lifecycle : String
  tier : String
deriving DecidableEq

/-- api.Resource (src/unnamed/part_007 lines 187-193); `rtype` is the Go
field Type. -/
structure Resource where
  id : String
  name : String
  rtype : String
  environment : String
  description : String
deriving DecidableEq

/-- api.EntityStatus (src/unnamed/part_007 lines 196-201).  The Go
Uptime is a float64 only ever formatted for display; none of the claims
computes with it, so it is carried opaquely as an integer number of
basis points. -/
structure EntityStatus where
  health : String
  uptime : Int
  lastDeployAt : String
  incidentCount : Int
deriving DecidableEq

/-- api.ScorecardCheck (src/unnamed/part_007 lines 405-410). -/
structure ScorecardCheck where
  name : String
  passed : Bool
  weight : Int
  message : String
deriving DecidableEq

/-- api.Scorecard (src/unnamed/part_007 lines 396-402). -/
structure Scorecard where
  score : Int
  grade : String
  maxScore : Int
  checks : List ScorecardCheck
  updatedAt : String
deriving DecidableEq

/-- tui.Field (src/pkg/tui/detail.go lines 11-15). -/
structure TuiField where
  label : String
  value : String
deriving DecidableEq

/-- tui.DetailSection (src/pkg/tui/detail.go lines 17-21). -/
structure DetailSection where
  title : String
  fields : List TuiField
deriving DecidableEq

/-- The joined fetch results of runGetEntity's three goroutines
(src/cmd/shoehorn/commands/get/entities.go lines 145-175). -/
structure FetchResult where
  resources : List Resource
  status : Option EntityStatus
  scorecard : Option Scorecard
deriving DecidableEq

/-- The three concurrent sub-fetches of runGetEntity (entities.go lines
152-175): each goroutine discards its fetch error (`r, _ :=`) and sends
the possibly-nil result on its own buffered channel; the main goroutine
receives from all three channels before merging, so the join is this
deterministic record.  A failed resources fetch yields a nil (empty)
slice; failed status or scorecard fetches yield nil pointers (none);
with the scorecard flag off no scorecard fetch is launched and nil is
sent directly. -/
def aggregateFetch (showScorecard : Bool) (res : Except String (List Resource))
    (st : Except String EntityStatus) (sc : Except String Scorecard) : FetchResult :=
  { resources := match res with | .ok l => l | .error _ => []
    status := match st with | .ok v => some v | .error _ => none
    scorecard :=
      if showScorecard then match sc with | .ok v => some v | .error _ => none
      else none }

/-- The section list runGetEntity renders (entities.go lines 177-246).
The lipgloss styling and fmt formatting of field values are excluded
rendering mechanics; each value carries the underlying data (health,
joined tag/link/check names, type and environment).  Section presence
follows the code exactly: the Status field is appended only when the
status result is non-nil, the Resources section only when the resource
list is non-empty (with the count in its title), the Scorecard section
only when the scorecard result is non-nil, with a Failed field only
when some check failed. -/
def buildEntitySections (e : EntityDetail) (fr : FetchResult) : List DetailSection :=
  let mainFields : List TuiField :=
    [{ label := "Type", value := e.etype }, { label := "Owner", value := e.owner },
     { label := "Lifecycle", value := e.lifecycle }, { label := "Tier", value := e.tier },
     { label := "Description", value := e.description },
     { label := "Tags", value := String.intercalate " " e.tags }]
  let mainFields :=
    match fr.status with
    | some s => mainFields ++ [{ label := "Status", value := s.health }]
    | none => mainFields
  let mainFields :=
    if 0 < e.links.length then
      mainFields ++
        [{ label := "Links", value := String.intercalate "  " (e.links.map EntityLink.title) }]
    else mainFields
  let resourceSections : List DetailSection :=
    if 0 < fr.resources.length then
      [{ title := "Resources (" ++ toString fr.resources.length ++ ")"
         fields := fr.resources.map fun r =>
           { label := r.name, value := r.rtype ++ "  " ++ r.environment } }]
    else []
  let scorecardSections : List DetailSection :=
    match fr.scorecard with
    | some v =>
      let failed := (v.checks.filter fun ch => !ch.passed).map fun ch => "x " ++ ch.name
      [{ title := "Scorecard"
         fields := [{ label := "Grade", value := v.grade }] ++
           (if 0 < failed.length then
             [{ label := "Failed", value := String.intercalate "\n" failed }] else []) }]
    | none => []
  { title := "", fields := mainFields } :: (resourceSections ++ scorecardSections)

/-- The tail of runGetEntity after the entity itself has loaded
(entities.go lines 144-247): join the three sub-fetches, build the
sections, render, and return nil — there is no error path after the
join, whatever the sub-fetch outcomes. -/
def runGetEntityDetail (e : EntityDetail) (showScorecard : Bool)
    (res : Except String (List Resource)) (st : Except String EntityStatus)
    (sc : Except String Scorecard) : Except String (List DetailSection) :=
  .ok (buildEntitySections e (aggregateFetch showScorecard res st sc))

/-- Does any section carry this exact title? -/
def hasSectionTitled (secs : List DetailSection) (t : String) : Bool :=
  secs.any fun s => s.title == t

/-- The generated Resources title can never collide with the Scorecard
title (their lengths differ). -/
theorem resourcesTitle_ne_scorecard (n : Nat) :
    ("Resources (" ++ toString n ++ ")") ≠ "Scorecard" := by
  intro h
  have hl := congrArg String.length h
  have h1 : "Resources (".length = 11 := rfl
  have h2 : ")".length = 1 := rfl
  have h3 : "Scorecard".length = 9 := rfl
  rw [String.length_append, String.length_append, h1, h2, h3] at hl
  omega

/-- Claim C8: the aggregation never hard-fails for any combination of
sub-fetch outcomes; in the claim's particular case — scorecard fetch
fails while status and resources succeed — the merged view still keeps
the status field and every fetched resource, and carries no scorecard
section (the failed section is degraded by omission). -/
theorem c8_detail_aggregation (e : EntityDetail) (rs : List Resource) (s : EntityStatus)
    (err : String) (res : Except String (List Resource)) (st : Except String EntityStatus)
    (sc : Except String Scorecard)
    (hres : res = .ok rs) (hst : st = .ok s) (hsc : sc = .error err) :
    (∀ (res2 : Except String (List Resource)) (st2 : Except String EntityStatus)
        (sc2 : Except String Scorecard) (b : Bool),
      ∃ secs, runGetEntityDetail e b res2 st2 sc2 = .ok secs) ∧
    (∃ main rest, runGetEntityDetail e true res st sc = .ok (main :: rest) ∧
      main.fields.any (fun f => f.label == "Status" && f.value == s.health) = true ∧
      (∀ r ∈ rs, (main :: rest).any
        (fun sec => sec.fields.any fun f => f.label == r.name) = true) ∧
      hasSectionTitled (main :: rest) "Scorecard" = false) := by
  subst hres hst hsc
  refine ⟨fun res2 st2 sc2 b => ⟨_, rfl⟩, ?_⟩
  refine ⟨_, _, rfl, ?_, ?_, ?_⟩
  · simp [buildEntitySections, aggregateFetch, List.any_append]
    split <;> simp
  · intro r hr
    have hlen : 0 < rs.length := List.length_pos.mpr (List.ne_nil_of_mem hr)
    simp [buildEntitySections, aggregateFetch, hlen, List.any_append, List.any_map]
    exact Or.inr ⟨r, hr, rfl⟩
  · by_cases hlen : 0 < rs.length <;>
      simp [hasSectionTitled, buildEntitySections, aggregateFetch, hlen,
        resourcesTitle_ne_scorecard]

/-- A demo entity for the aggregation witness. -/
def entityDemo : EntityDetail :=
  { id := "e1", name := "svc", slug := "svc", etype := "service", owner := "team-a"
    description := "demo service", tags := [], tenantID := "acme", links := []
    lifecycle := "production", tier := "1" }

/-- A demo resource for the aggregation witness. -/
def resourceDemo : Resource :=
  { id := "r1", name := "db", rtype := "postgres", environment := "prod", description := "" }

/-- A demo status for the aggregation witness. -/
def statusDemo : EntityStatus :=
  { health := "healthy", uptime := 9990, lastDeployAt := "", incidentCount := 0 }

/-- Witness for C8: scorecard fetch fails, status and resources succeed
on concrete data. -/
theorem c8_detail_aggregation_witness :
    (∀ (res2 : Except String (List Resource)) (st2 : Except String EntityStatus)
        (sc2 : Except String Scorecard) (b : Bool),
      ∃ secs, runGetEntityDetail entityDemo b res2 st2 sc2 = .ok secs) ∧
    (∃ main rest, runGetEntityDetail entityDemo true (.ok [resourceDemo]) (.ok statusDemo)
        (.error "boom") = .ok (main :: rest) ∧
      main.fields.any (fun f => f.label == "Status" && f.value == statusDemo.health) = true ∧
      (∀ r ∈ [resourceDemo], (main :: rest).any
        (fun sec => sec.fields.any fun f => f.label == r.name) = true) ∧
      hasSectionTitled (main :: rest) "Scorecard" = false) :=
  c8_detail_aggregation entityDemo [resourceDemo] statusDemo "boom"
    (.ok [resourceDemo]) (.ok statusDemo) (.error "boom") rfl rfl rfl

/-- A YAML document tree: the Save/Load pair exchanges structure, not
text, with the yaml.v3 codec the spec excludes as an external
collaborator; timestamps are the numeric time model. -/
inductive YamlValue where
  | str (s : String)
  | nat (n : Nat)
  | map (entries : List (String × YamlValue))

/-- Key lookup in a YAML mapping (first binding wins). -/
def yamlLookup : List (String × YamlValue) → String → Option YamlValue
  | [], _ => none
  | (k, v) :: rest, n => if k = n then some v else yamlLookup rest n

/-- Decoding a string field: a missing key leaves the Go zero value "".
A non-string node under the key never arises from our own marshal. -/
def getStr (entries : List (String × YamlValue)) (k : String) : String :=
  match yamlLookup entries k with
  | some (.str s) => s
  | _ => ""

/-- Decoding a timestamp field: a missing key leaves the zero time. -/
def getNat (entries : List (String × YamlValue)) (k : String) : Nat :=
  match yamlLookup entries k with
  | some (.nat n) => n
  | _ => 0

/-- Marshal config.User per its yaml tags (src/unnamed/part_010 lines
39-43): email always, name and tenant_id omitempty. -/
def marshalUser (u : User) : YamlValue :=
  .map ([("email", .str u.email)] ++
    (if u.name = "" then [] else [("name", .str u.name)]) ++
    (if u.tenantID = "" then [] else [("tenant_id", .str u.tenantID)]))

/-- Unmarshal config.User. -/
def unmarshalUser (v : YamlValue) : Option User :=
  match v with
  | .map es => some { email := getStr es "email", name := getStr es "name"
                      tenantID := getStr es "tenant_id" }
  | _ => none

/-- Marshal config.Auth per its yaml tags (src/unnamed/part_010 lines
27-36): provider_type, issuer, client_id always; access_token,
refresh_token, token_type, expires_at, user omitempty. -/
def marshalAuth (a : Auth) : YamlValue :=
  .map ([("provider_type", .str a.providerType), ("issuer", .str a.issuer),
         ("client_id", .str a.clientID)] ++
    (if a.accessToken = "" then [] else [("access_token", .str a.accessToken)]) ++
    (if a.refreshToken = "" then [] else [("refresh_token", .str a.refreshToken)]) ++
    (if a.tokenType = "" then [] else [("token_type", .str a.tokenType)]) ++
    (if a.expiresAt = 0 then [] else [("expires_at", .nat a.expiresAt)]) ++
    (match a.user with
     | none => []
     | some u => [("user", marshalUser u)]))

/-- Unmarshal config.Auth. -/
def unmarshalAuth (v : YamlValue) : Option Auth :=
  match v with
  | .map es =>
    match yamlLookup es "user" with
    | none =>
      some { providerType := getStr es "provider_type", issuer := getStr es "issuer"
             clientID := getStr es "client_id", accessToken := getStr es "access_token"
             refreshToken := getStr es "refresh_token", tokenType := getStr es "token_type"
             expiresAt := getNat es "expires_at", user := none }
    | some uv =>
      (unmarshalUser uv).map fun u =>
        { providerType := getStr es "provider_type", issuer := getStr es "issuer"
          clientID := getStr es "client_id", accessToken := getStr es "access_token"
          refreshToken := getStr es "refresh_token", tokenType := getStr es "token_type"
          expiresAt := getNat es "expires_at", user := some u }
  | _ => none

/-- Marshal config.Profile per its yaml tags (src/unnamed/part_010
lines 20-24): name and server always, auth omitempty. -/
def marshalProfile (p : Profile) : YamlValue :=
  .map ([("name", .str p.name), ("server", .str p.server)] ++
    (match p.auth with
     | none => []
     | some a => [("auth", marshalAuth a)]))

/-- Unmarshal config.Profile. -/
def unmarshalProfile (v : YamlValue) : Option Profile :=
  match v with
  | .map es =>
    match yamlLookup es "auth" with
    | none => some { name := getStr es "name", server := getStr es "server", auth := none }
    | some av =>
      (unmarshalAuth av).map fun a =>
        { name := getStr es "name", server := getStr es "server", auth := some a }
  | _ => none

/-- Marshal the profiles mapping, binding by binding. -/
def marshalProfiles (ps : List (String × Profile)) : List (String × YamlValue) :=
  ps.map fun kp => (kp.1, marshalProfile kp.2)

/-- Unmarshal the profiles mapping; any ill-formed entry fails the whole
parse (ConfigCorruptError). -/
def unmarshalProfiles : List (String × YamlValue) → Option (List (String × Profile))
  | [] => some []
  | (k, v) :: rest =>
    match unmarshalProfile v, unmarshalProfiles rest with
    | some p, some ps => some ((k, p) :: ps)
    | _, _ => none

/-- Config.Save's serialization (src/unnamed/part_010 lines 100-116):
marshal the whole config per its yaml tags (version, current_profile
and the profiles mapping, none omitempty). -/
def marshalConfig (c : Config) : YamlValue :=
  .map [("version", .str c.version), ("current_profile", .str c.currentProfile),
        ("profiles", .map (marshalProfiles c.profiles))]

/-- Load's parse (src/unnamed/part_010 lines 86-96): decode the document
into a Config; `none` is the unmarshal error. A missing profiles key
leaves the zero (empty) mapping. -/
def unmarshalConfig (v : YamlValue) : Option Config :=
  match v with
  | .map es =>
    match yamlLookup es "profiles" with
    | none => some { version := getStr es "version"
                     currentProfile := getStr es "current_profile", profiles := [] }
    | some (.map pes) =>
      (unmarshalProfiles pes).map fun ps =>
        { version := getStr es "version", currentProfile := getStr es "current_profile"
          profiles := ps }
    | some _ => none
  | _ => none

/-- Load (src/unnamed/part_010 lines 66-97) over the stored document:
no file yields the default config, a present document is unmarshalled. -/
def loadConfig (file : Option YamlValue) : Option Config :=
  match file with
  | none => some defaultConfig
  | some v => unmarshalConfig v

/-- User survives a marshal/unmarshal round trip, whichever optional
fields are omitted. -/
theorem user_roundtrip (u : User) : unmarshalUser (marshalUser u) = some u := by
  obtain ⟨e, n, t⟩ := u
  by_cases h1 : n = "" <;> by_cases h2 : t = "" <;>
    simp [marshalUser, unmarshalUser, getStr, yamlLookup, h1, h2]

/-- Auth survives a marshal/unmarshal round trip: omitted empty fields
decode back to their zero values. -/
theorem auth_roundtrip (a : Auth) : unmarshalAuth (marshalAuth a) = some a := by
  obtain ⟨pt, iss, cid, tok, rtok, tt, ea, us⟩ := a
  cases us with
  | none =>
    by_cases h1 : tok = "" <;> by_cases h2 : rtok = "" <;> by_cases h3 : tt = "" <;>
      by_cases h4 : ea = 0 <;>
      simp [marshalAuth, unmarshalAuth, getStr, getNat, yamlLookup, h1, h2, h3, h4]
  | some u =>
    by_cases h1 : tok = "" <;> by_cases h2 : rtok = "" <;> by_cases h3 : tt = "" <;>
      by_cases h4 : ea = 0 <;>
      simp [marshalAuth, unmarshalAuth, getStr, getNat, yamlLookup, h1, h2, h3, h4,
        user_roundtrip]

/-- Profile survives a marshal/unmarshal round trip. -/
theorem profile_roundtrip (p : Profile) : unmarshalProfile (marshalProfile p) = some p := by
  obtain ⟨n, s, a⟩ := p
  cases a with
  | none => simp [marshalProfile, unmarshalProfile, getStr, yamlLookup]
  | some a =>
    simp [marshalProfile, unmarshalProfile, getStr, yamlLookup, auth_roundtrip]

/-- The profiles mapping survives a round trip, binding by binding. -/
theorem profiles_roundtrip (ps : List (String × Profile)) :
    unmarshalProfiles (marshalProfiles ps) = some ps := by
  induction ps with
  | nil => simp [marshalProfiles, unmarshalProfiles]
  | cons kp rest ih =>
    simp [marshalProfiles, unmarshalProfiles, profile_roundtrip] at ih ⊢
    simp [ih]

/-- Claim C7: saving any Config and loading the stored document yields
the identical structure — same version, same current profile, same
profile set with identical auth fields. -/
theorem c7_config_roundtrip (c : Config) :
    loadConfig (some (marshalConfig c)) = some c := by
  obtain ⟨v, cp, ps⟩ := c
  simp [loadConfig, marshalConfig, unmarshalConfig, getStr, yamlLookup, profiles_roundtrip]
